import Mathlib

/-!
Verification development for the rugplay_api interactive CLI client
(src/main.ts).  The TypeScript source is shallowly embedded: each command
handler becomes a Lean function from the stored cookie, the per-call server
responses and the tokenized arguments to the list of observable effects
(network requests, console lines, the unauthenticated warning, local file
reads); JavaScript numbers are modelled as exact rationals.
-/

/-- Model of the JavaScript Math.round (round half up) on exact rationals. -/
def jsRound (q : ℚ) : ℤ := ⌊q + 1/2⌋

/-- Model of the JavaScript Math.floor on exact rationals. -/
def jsFloor (q : ℚ) : ℤ := ⌊q⌋

/-- The three-decimal currency formatting Math.round(x*1000)/1000 used at
most display sites of the program. -/
def round3 (q : ℚ) : ℚ := ((jsRound (q * 1000) : ℤ) : ℚ) / 1000

/-- Digits to a natural number, most significant first. -/
def digitsToNat (ds : List Char) : ℕ := ds.foldl (fun n c => 10 * n + (c.toNat - 48)) 0

/-- Model of the JavaScript parseFloat on the decimal numerals the program
feeds it: optional sign, integer digits, optional fractional digits; the
longest numeric prefix is read and trailing text is ignored; none models the
NaN result (no digits at all).  Exponent notation and the Infinity literal
are not exercised by any claim and are not modelled. -/
def parseFloatQ (s : String) : Option ℚ :=
  let cs := s.data.dropWhile Char.isWhitespace
  let isNeg := cs.head? = some (Char.ofNat 45)
  let sign : ℚ := if isNeg then -1 else 1
  let cs1 := if isNeg ∨ cs.head? = some (Char.ofNat 43) then cs.tail else cs
  let intPart := cs1.takeWhile Char.isDigit
  let rest := cs1.dropWhile Char.isDigit
  let fracPart :=
    if rest.head? = some (Char.ofNat 46) then rest.tail.takeWhile Char.isDigit else []
  if intPart = [] ∧ fracPart = [] then none
  else some (sign * ((digitsToNat intPart : ℚ) + (digitsToNat fracPart : ℚ) / (10 ^ fracPart.length)))

/-- Structured model of the JSON and multipart bodies the client sends. -/
inductive ReqBody
  | empty
  | coinflip (side : String) (amount : Option ℚ)
  | slots (amount : Option ℚ)
  | promo (code : Option String)
  | trade (ty : String) (amount : Option ℚ)
  | form
deriving DecidableEq

/-- Observable effects of running a command handler. -/
inductive Effect
  | net (url method : String) (body : ReqBody)
  | warn
  | out (line : String)
  | fileRead (path : String)
  | crash
deriving DecidableEq

/-- A server response as the call site sees it: the ok flag, the raw text
used by the error dumps, and the decoded JSON payload. -/
structure Resp (α : Type) where
  ok : Bool
  text : String
  payload : α
deriving DecidableEq

/-- Embedding of api_req (src/main.ts lines 50-69): with the sentinel cookie
it prints the unauthenticated warning and yields undefined without any
network request; otherwise it issues one request against the fixed base URL
and yields the response the server gives for this call. -/
def api_req {α : Type} (cookie : String) (resp : Resp α) (api method : String) (body : ReqBody) :
    List Effect × Option (Resp α) :=
  if cookie = "unknown" then
    ([Effect.warn], none)
  else
    ([Effect.net ("https://rugplay.com/api/" ++ api) method body], some resp)

def Effect.isNet : Effect → Bool
  | .net _ _ _ => true
  | _ => false

def Effect.isWarn : Effect → Bool
  | .warn => true
  | _ => false

def Effect.isBuyCall : Effect → Bool
  | .net _ _ (.trade "BUY" _) => true
  | _ => false

/-- Number of network requests in a trace. -/
def countNet (t : List Effect) : ℕ := t.countP Effect.isNet

/-- Number of unauthenticated warnings in a trace. -/
def countWarn (t : List Effect) : ℕ := t.countP Effect.isWarn

/-- Number of BUY trade requests in a trace. -/
def countBuyCalls (t : List Effect) : ℕ := t.countP Effect.isBuyCall

/-- The persisted configuration: the single session cookie. -/
structure Config where
  cookie : String
deriving DecidableEq

def quoteChar : Char := Char.ofNat 34

def backslashChar : Char := Char.ofNat 92

def lbraceChar : Char := Char.ofNat 123

def rbraceChar : Char := Char.ofNat 125

/-- JSON string escaping as JSON.stringify performs it on the quote and the
backslash; every other character is written verbatim. -/
def escapeChar (c : Char) : List Char :=
  if c = quoteChar ∨ c = backslashChar then [backslashChar, c] else [c]

def escapeJson : List Char → List Char
  | [] => []
  | c :: cs => escapeChar c ++ escapeJson cs

/-- The characters of the fixed prefix of a written config file. -/
def configPrefixChars : List Char := lbraceChar :: "\"cookie\":\"".data

/-- Model of JSON.stringify on the config object: exactly the file content
the program writes. -/
def stringifyConfig (c : Config) : String :=
  String.mk (configPrefixChars ++ (escapeJson c.cookie.data ++ [quoteChar, rbraceChar]))

/-- Scans a JSON string body up to its closing quote, undoing the escapes
stringifyConfig introduces; yields the decoded characters and whatever
follows the closing quote. -/
def parseJsonStringBody : List Char → Option (List Char × List Char)
  | [] => none
  | c :: rest =>
    if c = backslashChar then
      match rest with
      | [] => none
      | d :: rest2 =>
        if d = quoteChar ∨ d = backslashChar then
          (parseJsonStringBody rest2).map (fun p => (d :: p.1, p.2))
        else none
    else if c = quoteChar then some ([], rest)
    else (parseJsonStringBody rest).map (fun p => (c :: p.1, p.2))

/-- Model of JSON.parse restricted to the single object shape this program
ever writes and reads back. -/
def parseConfig (s : String) : Option Config :=
  if s.data.take configPrefixChars.length = configPrefixChars then
    match parseJsonStringBody (s.data.drop configPrefixChars.length) with
    | some p => if p.2 = [rbraceChar] then some (Config.mk (String.mk p.1)) else none
    | none => none
  else none

/-- The filesystem slot holding the config file at its fixed home path. -/
structure FS where
  file : Option String
deriving DecidableEq

/-- Embedding of readConfig (lines 10-13): a missing file or a parse failure
is the thrown-exception path, modelled as none. -/
def readConfig (fs : FS) : Option Config := fs.file.bind parseConfig

/-- Embedding of writeConfig (lines 15-31); the best-effort directory
creation is silently ignored and has no observable effect in this model. -/
def writeConfig (_fs : FS) (c : Config) : FS := FS.mk (some (stringifyConfig c))

def apos : String := String.mk [Char.ofNat 39]

/-- Console lines of the startup failure path; the dumped error object is
elided. -/
def startupFailEffects : List Effect :=
  [Effect.out ("Couldn" ++ apos ++ "t read configuration file:"), Effect.out "Wrote default file."]

/-- Embedding of the startup config block (lines 39-47): try readConfig, and
on any failure keep the sentinel default, report, and write the default
back. -/
def startupLoad (fs : FS) : Config × FS × List Effect :=
  match readConfig fs with
  | some c => (c, fs, [])
  | none => (Config.mk "unknown", writeConfig fs (Config.mk "unknown"), startupFailEffects)

/-- Re-joining of remaining tokens with single spaces (the shift-and-append
loops of the source).  On an empty list the source variable would be the
undefined value; the claims only exercise nonempty token lists. -/
def joinRest : List String → String
  | [] => ""
  | t :: ts => ts.foldl (fun acc s2 => acc ++ " " ++ s2) t

/-- Embedding of the set-cookie handler (lines 133-144): joins the tokens,
stores the cookie and persists the config at once. -/
def setCookieRun (cfg : Config) (fs : FS) (args : List String) : Config × FS × List Effect :=
  let cookie := joinRest args
  let cfg2 : Config := { cfg with cookie := cookie }
  (cfg2, writeConfig fs cfg2, [Effect.out "Set cookie successfully."])

/-- Directional classification of a change value. -/
inductive Dir
  | up
  | flat
  | down
deriving DecidableEq

/-- The if-chain replicated at the change rendering sites (lines 479-485,
536-542, 634-640 and 642-648 of src/main.ts): strictly positive, exactly
zero, otherwise negative. -/
def dayChangeTag (v : ℚ) : Dir :=
  if v > 0 then Dir.up else if v = 0 then Dir.flat else Dir.down

def dirGlyph : Dir → String
  | Dir.up => "^"
  | Dir.flat => "-"
  | Dir.down => "v"

/-- A rendered change cell: glyph, space, then the raw value. -/
def changeStr (v : ℚ) : String := dirGlyph (dayChangeTag v) ++ " " ++ toString v

/-- Embedding of slot_record (lines 71-78): the fixed six-symbol glyph
table; every other key reads as the absent entry. -/
def slot_record (s : String) : Option String :=
  if s = "wattesigma" then some "◻️"
  else if s = "webx" then some "⬛"
  else if s = "twoblade" then some "🟥"
  else if s = "lyntr" then some "🟪"
  else if s = "bussin" then some "🟧"
  else if s = "subterfuge" then some "🟩"
  else none

/-- Model of how console.log renders an absent record entry: the literal
text undefined, with no error raised. -/
def showJs : Option String → String
  | none => "undefined"
  | some g => g

/-- The symbol line of the slots handler (line 191): three lookups printed
space-separated by a single console.log. -/
def slotsSymbolLine (symbols : List String) : String :=
  showJs (slot_record ((symbols.get? 0).getD "")) ++ " " ++
    showJs (slot_record ((symbols.get? 1).getD "")) ++ " " ++
    showJs (slot_record ((symbols.get? 2).getD ""))

/-- Payload of gambling/coinflip. -/
structure CoinflipJson where
  won : Bool
  newBalance : ℚ
  payout : ℚ
deriving DecidableEq

/-- Payload of gambling/slots. -/
structure SlotsJson where
  won : Bool
  newBalance : ℚ
  payout : ℚ
  symbols : List String
deriving DecidableEq

/-- Payload of portfolio/summary. -/
structure SummaryJson where
  baseCurrencyBalance : ℚ
  totalCoinValue : ℚ
  totalValue : ℚ
deriving DecidableEq

/-- Payload of promo/verify. -/
structure RedeemJson where
  message : String
deriving DecidableEq

/-- Payload of coin/create; coinSymbol stands for the nested coin.symbol. -/
structure NewCoinJson where
  coinSymbol : String
  feePaid : ℚ
  message : String
deriving DecidableEq

/-- Fields of the side-channel page-data payload the program reads
(nodes[0].data[3], [4] and [10]). -/
structure MeJson where
  name : String
  username : String
  bio : String
deriving DecidableEq

/-- Payload of rewards/claim. -/
structure DailyJson where
  totalRewardsClaimed : ℕ
  newBalance : ℚ
  rewardAmount : ℚ
deriving DecidableEq

structure Notif where
  title : String
  message : String
  isRead : Bool
deriving DecidableEq

/-- Payload of the notifications endpoint. -/
structure NotificationsJson where
  unreadCount : ℕ
  notifications : List Notif
deriving DecidableEq

/-- One listed coin of the market endpoint. -/
structure MarketCoin where
  symbol : String
  name : String
  currentPrice : ℚ
  change24h : ℚ
  marketCap : ℚ
  creatorName : String
deriving DecidableEq

/-- Payload of the market endpoint. -/
structure MarketJson where
  coins : List MarketCoin
  totalPages : ℕ
deriving DecidableEq

/-- Payload of coin/symbol/trade. -/
structure TradeJson where
  coinsSold : ℚ
  newBalance : ℚ
deriving DecidableEq

/-- One holding of portfolio/total. -/
structure Holding where
  symbol : String
  quantity : ℚ
  currentPrice : ℚ
  percentageChange : ℚ
  change24h : ℚ
  value : ℚ
deriving DecidableEq

/-- Payload of portfolio/total. -/
structure PortfolioJson where
  baseCurrencyBalance : ℚ
  totalCoinValue : ℚ
  totalValue : ℚ
  coinHoldings : List Holding
deriving DecidableEq

structure TxCoin where
  id : ℤ
  symbol : String
deriving DecidableEq

/-- One transaction of the transactions endpoint. -/
structure Tx where
  ty : String
  quantity : ℚ
  totalBaseCurrencyAmount : ℚ
  coin : TxCoin
  recipientUsername : String
  senderUsername : String
deriving DecidableEq

/-- Payload of the transactions endpoint. -/
structure TransactionsJson where
  transactions : List Tx
deriving DecidableEq

structure VUProfile where
  name : String
  username : String
  bio : String
  isAdmin : Bool
  baseCurrencyBalance : ℚ
deriving DecidableEq

structure VUStats where
  totalPortfolioValue : ℚ
  holdingsValue : ℚ
  totalBuyVolume : ℚ
  totalSellVolume : ℚ
  coinsCreated : ℕ
deriving DecidableEq

structure CreatedCoin where
  currentPrice : ℚ
  change24h : ℚ
  marketCap : ℚ
deriving DecidableEq

/-- One recent transaction of the user endpoint (flat coinSymbol/coinName
fields, unlike the transactions endpoint). -/
structure VUTx where
  ty : String
  quantity : ℚ
  totalBaseCurrencyAmount : ℚ
  coinSymbol : String
  coinName : String
  recipientUsername : String
  senderUsername : String
deriving DecidableEq

/-- Payload of the user endpoint. -/
structure ViewUserJson where
  profile : VUProfile
  stats : VUStats
  createdCoins : List CreatedCoin
  recentTransactions : List VUTx
deriving DecidableEq

/-- The two console lines of the per-call-site API error dump. -/
def apiErrLines {α : Type} (a : Resp α) : List Effect :=
  [Effect.out "API ERROR:", Effect.out a.text]

/-- Rendering of a parsed amount inside a printed line; none (NaN) prints as
the literal NaN. -/
def showAmt : Option ℚ → String
  | none => "NaN"
  | some q => toString q

/-- The wagered side of the coinflip handler (line 148): the string tails
exactly when the first token equals the string 1, heads otherwise, also for
a missing token. -/
def coinflipSide (args : List String) : String :=
  if args.head? = some "1" then "tails" else "heads"

/-- The wager amount of the coinflip handler (line 149): parseFloat of the
second token, the literal 0.01 substituted when the token is absent. -/
def coinflipAmount (args : List String) : Option ℚ :=
  parseFloatQ ((args.get? 1).getD "0.01")

/-- Embedding of the coinflip handler (lines 145-172). -/
def coinflipRun (cookie : String) (r : Resp CoinflipJson) (args : List String) : List Effect :=
  let side := coinflipSide args
  let amount := coinflipAmount args
  let p := api_req cookie r "gambling/coinflip" "POST" (ReqBody.coinflip side amount)
  p.1 ++ match p.2 with
  | none => []
  | some a =>
    if a.ok = false then apiErrLines a
    else if a.payload.won = false then
      [Effect.out "You lost.",
       Effect.out ("New balance: $" ++ toString (round3 a.payload.newBalance) ++ " (-" ++ showAmt amount ++ ")")]
    else
      [Effect.out "You won!",
       Effect.out ("New balance: $" ++ toString (round3 a.payload.newBalance) ++ " (+" ++ toString a.payload.payout ++ ")")]

/-- Embedding of the slots handler (lines 173-200). -/
def slotsRun (cookie : String) (r : Resp SlotsJson) (args : List String) : List Effect :=
  let amount := parseFloatQ ((args.get? 0).getD "0.01")
  let p := api_req cookie r "gambling/slots" "POST" (ReqBody.slots amount)
  p.1 ++ match p.2 with
  | none => []
  | some a =>
    if a.ok = false then apiErrLines a
    else
      Effect.out (slotsSymbolLine a.payload.symbols) ::
        (if a.payload.won = false then
          [Effect.out "You lost.",
           Effect.out ("New balance: $" ++ toString (round3 a.payload.newBalance) ++ " (-" ++ showAmt amount ++ ")")]
        else
          [Effect.out "You won!",
           Effect.out ("New balance: $" ++ toString (round3 a.payload.newBalance) ++ " (+" ++ toString a.payload.payout ++ ")")])

/-- Embedding of the summary handler (lines 201-222). -/
def summaryRun (cookie : String) (r : Resp SummaryJson) : List Effect :=
  let p := api_req cookie r "portfolio/summary" "GET" ReqBody.empty
  p.1 ++ match p.2 with
  | none => []
  | some a =>
    if a.ok = false then apiErrLines a
    else
      [Effect.out "Portfolio Summary",
       Effect.out ("Balance: $" ++ toString (round3 a.payload.baseCurrencyBalance)),
       Effect.out ("Total coin value: $" ++ toString (round3 a.payload.totalCoinValue)),
       Effect.out ("Total value: $" ++ toString (round3 a.payload.totalValue))]

/-- Embedding of the redeem handler (lines 223-242). -/
def redeemRun (cookie : String) (r : Resp RedeemJson) (args : List String) : List Effect :=
  let p := api_req cookie r "promo/verify" "POST" (ReqBody.promo args.head?)
  p.1 ++ match p.2 with
  | none => []
  | some a => if a.ok = false then apiErrLines a else [Effect.out a.payload.message]

/-- Embedding of the new-coin handler (lines 243-277); reading the icon from
disk is an observable local effect that can fail before any network call. -/
def newCoinRun (cookie : String) (fileOk : String → Bool) (r : Resp NewCoinJson) (args : List String) : List Effect :=
  if args.length ≠ 3 then [Effect.out "Invalid argument length"]
  else
    let iconPath := (args.get? 2).getD ""
    Effect.fileRead iconPath ::
      (if fileOk iconPath = false then [Effect.out "Error whilst creating logo file:"]
       else
         let p := api_req cookie r "coin/create" "POST" ReqBody.form
         p.1 ++ match p.2 with
         | none => []
         | some a =>
           if a.ok = false then apiErrLines a
           else
             [Effect.out ("Created " ++ a.payload.coinSymbol ++ " (-" ++ toString a.payload.feePaid ++ ")\n" ++ a.payload.message)])

def meDataUrl : String :=
  "https://rugplay.com/__data.json?x-sveltekit-trailing-slash=1&x-sveltekit-invalidated=10"

/-- Embedding of me() (lines 93-114): an unguarded direct fetch of the
side-channel data endpoint; no sentinel-cookie check happens here. -/
def meFetch (_cookie : String) (r : Resp MeJson) : List Effect × Option MeJson :=
  (Effect.net meDataUrl "GET" ReqBody.empty :: (if r.ok = false then apiErrLines r else []),
   if r.ok = false then none else some r.payload)

/-- Embedding of the me handler (lines 335-344). -/
def meRun (cookie : String) (r : Resp MeJson) : List Effect :=
  let p := meFetch cookie r
  p.1 ++ match p.2 with
  | none => []
  | some j => [Effect.out (j.name ++ " (@" ++ j.username ++ ")\n" ++ j.bio)]

/-- Tail of the settings handler after the form is assembled (lines
319-333). -/
def settingsFinish (cookie : String) (r : Resp Unit) : List Effect :=
  let p := api_req cookie r "settings" "POST" ReqBody.form
  p.1 ++ match p.2 with
  | none => []
  | some a => if a.ok = false then apiErrLines a else [Effect.out "Updated settings"]

/-- Embedding of the settings handler (lines 278-334): it calls the
side-channel me() fetch first, then builds the multipart form (appending
name, username and bio has no observable effect), reading the avatar file
when that argument is not the sentinel none, and only then reaches
api_req. -/
def settingsRun (cookie : String) (rme : Resp MeJson) (rset : Resp Unit) (fileOk : String → Bool) (args : List String) : List Effect :=
  if args.length < 4 then [Effect.out "Invalid command parameters"]
  else
    let p := meFetch cookie rme
    p.1 ++ match p.2 with
    | none => []
    | some _u =>
      let filePath := (args.get? 2).getD ""
      if filePath = "none" then settingsFinish cookie rset
      else
        Effect.fileRead filePath ::
          (if fileOk filePath = false then [Effect.out "Error whilst creating File:"]
           else settingsFinish cookie rset)

/-- Embedding of the daily-reward handler (lines 345-363). -/
def dailyRewardRun (cookie : String) (r : Resp DailyJson) : List Effect :=
  let p := api_req cookie r "rewards/claim" "POST" ReqBody.empty
  p.1 ++ match p.2 with
  | none => []
  | some a =>
    if a.ok = false then apiErrLines a
    else
      [Effect.out ("Redeemed " ++ toString a.payload.totalRewardsClaimed ++
        " rewards\nNew balance: $" ++ toString a.payload.newBalance ++
        " (+" ++ toString a.payload.rewardAmount ++ ")")]

def notifLine (n : Notif) : Effect := Effect.out (n.title ++ "\n" ++ n.message)

/-- Embedding of the notifications handler (lines 364-394): unread entries
are listed first, then the read ones. -/
def notificationsRun (cookie : String) (r : Resp NotificationsJson) : List Effect :=
  let p := api_req cookie r "notifications" "GET" ReqBody.empty
  p.1 ++ match p.2 with
  | none => []
  | some a =>
    if a.ok = false then apiErrLines a
    else
      Effect.out ("Notifications " ++ toString a.payload.unreadCount) ::
        Effect.out "Unread" ::
          ((a.payload.notifications.filter (fun n => n.isRead = false)).map notifLine ++
            Effect.out "Read" ::
              (a.payload.notifications.filter (fun n => n.isRead = true)).map notifLine)

/-- The purchase count of the invest handler (line 411):
Math.floor(budget/amount). -/
def investLimit (budget amount : ℚ) : ℤ := jsFloor (budget / amount)

/-- The market query of the invest handler (line 414). -/
def investMarketApi (page : String) (limit : ℤ) : String :=
  "market?search=&sortBy=marketCap&sortOrder=desc&priceFilter=all&changeFilter=all&page=" ++
    page ++ "&limit=" ++ toString limit

/-- The BUY loop of the invest handler (lines 427-443): index i counts up to
the purchase count (the fuel), one sequential trade call per listed coin,
aborting on the first undefined or non-OK response; indexing past the listed
coins is the unhandled-TypeError crash of the source. -/
def investLoop (cookie : String) (trades : ℕ → Resp Unit) (coins : List MarketCoin) (amount : ℚ) : ℕ → ℕ → List Effect
  | _, 0 => []
  | i, fuel + 1 =>
    match coins.get? i with
    | none => [Effect.crash]
    | some c =>
      let p := api_req cookie (trades i) ("coin/" ++ c.symbol ++ "/trade") "POST" (ReqBody.trade "BUY" (some amount))
      p.1 ++ match p.2 with
      | none => []
      | some a =>
        if a.ok = false then apiErrLines a
        else
          Effect.out (" Invested in " ++ c.symbol ++ " (-" ++ toString amount ++ ")") ::
            investLoop cookie trades coins amount (i + 1) fuel

/-- The invest handler after argument parsing (lines 411-443); trades gives
the server response to the i-th BUY call. -/
def investCore (cookie : String) (budget amount : ℚ) (page : String) (mkt : Resp MarketJson) (trades : ℕ → Resp Unit) : List Effect :=
  let limit := investLimit budget amount
  let p := api_req cookie mkt (investMarketApi page limit) "GET" ReqBody.empty
  p.1 ++ match p.2 with
  | none => []
  | some a =>
    if a.ok = false then apiErrLines a
    else
      Effect.out ("Investing in " ++ toString limit ++ " coins at the top of the marketplace") ::
        investLoop cookie trades a.payload.coins amount 0 limit.toNat

/-- Embedding of the invest handler (lines 395-444) including its argument
parsing: fewer than two arguments report an error, a NaN budget or amount
returns silently. -/
def investRun (cookie : String) (mkt : Resp MarketJson) (trades : ℕ → Resp Unit) (args : List String) : List Effect :=
  if args.length < 2 then [Effect.out "Invald paramteres to command"]
  else
    match parseFloatQ ((args.get? 0).getD "") with
    | none => []
    | some budget =>
      match parseFloatQ ((args.get? 1).getD "") with
      | none => []
      | some amount => investCore cookie budget amount ((args.get? 2).getD "1") mkt trades

/-- Total portfolio of the view-user report (line 468):
Math.round(x*1000)/1000. -/
def viewUserTotalShown (q : ℚ) : ℚ := ((jsRound (q * 1000) : ℤ) : ℚ) / 1000

/-- Illiquid value of the view-user report (line 469):
Math.round(x*1000)/1000. -/
def viewUserHoldingsShown (q : ℚ) : ℚ := ((jsRound (q * 1000) : ℤ) : ℚ) / 1000

/-- Liquid value of the view-user report (line 470): the source uses
Math.floor(x*1000)/1000 here. -/
def viewUserLiquidShown (q : ℚ) : ℚ := ((jsFloor (q * 1000) : ℤ) : ℚ) / 1000

/-- Buy volume of the view-user report (line 471): the source uses a bare
Math.floor(x) with no decimal scaling. -/
def viewUserBuyVolumeShown (q : ℚ) : ℚ := ((jsFloor q : ℤ) : ℚ)

/-- Sell volume of the view-user report (line 472): the source uses
Math.floor(x*1000)/1000 here. -/
def viewUserSellVolumeShown (q : ℚ) : ℚ := ((jsFloor (q * 1000) : ℤ) : ℚ) / 1000

/-- A created-coin row of the view-user report (line 486).  The source
interpolates chalk.bgWhite() (an empty styled string) and chalk.name (the
name property of the chalk function object) instead of the coin fields;
the market cap uses Math.floor(x*1000)/1000. -/
def createdCoinLine (c : CreatedCoin) : String :=
  "   (chalk) | $" ++ toString (round3 c.currentPrice) ++ " | " ++ changeStr c.change24h ++
    " | " ++ toString (((jsFloor (c.marketCap * 1000) : ℤ) : ℚ) / 1000)

/-- A recent-transaction row of the view-user report (lines 489-507); an
unrecognized type prints nothing. -/
def vuTxLines (t : VUTx) : List Effect :=
  if t.ty = "BUY" then
    [Effect.out ("  Buy " ++ toString (round3 t.quantity) ++ " " ++ t.coinSymbol ++
      " for $" ++ toString t.totalBaseCurrencyAmount)]
  else if t.ty = "TRANSFER_OUT" then
    [Effect.out ("  Transferred " ++
      (if t.coinName = "LINKCOIN" then "$" ++ toString (round3 t.totalBaseCurrencyAmount)
       else toString (round3 t.quantity) ++ " " ++ t.coinSymbol) ++
      " to " ++ t.recipientUsername ++ " ")]
  else if t.ty = "SELL" then
    [Effect.out ("  Sell " ++ toString (round3 t.quantity) ++ " " ++ t.coinSymbol ++
      " for $" ++ toString t.totalBaseCurrencyAmount)]
  else if t.ty = "TRANSFER_IN" then
    [Effect.out ("  Received " ++
      (if t.coinName = "LINKCOIN" then "$" ++ toString (round3 t.totalBaseCurrencyAmount)
       else toString (round3 t.quantity) ++ " " ++ t.coinSymbol) ++
      " from " ++ t.senderUsername)]
  else []

/-- Embedding of the view-user handler (lines 446-509).  The created-coins
header at line 474 compares the createdCoins array itself against 0, which
under the JavaScript coercion rules is never true, so no header row is ever
printed and none appears here. -/
def viewUserRun (cookie : String) (r : Resp ViewUserJson) (args : List String) : List Effect :=
  if args.length ≠ 1 then [Effect.out "Invalid parameters to command"]
  else
    let p := api_req cookie r ("user/" ++ (args.get? 0).getD "") "GET" ReqBody.empty
    p.1 ++ match p.2 with
    | none => []
    | some a =>
      if a.ok = false then apiErrLines a
      else
        Effect.out (a.payload.profile.name ++ " (@" ++ a.payload.profile.username ++ ") " ++
            (if a.payload.profile.isAdmin = true then "ADMIN" else "")) ::
          Effect.out a.payload.profile.bio ::
          Effect.out ("Total portfolio: $" ++ toString (viewUserTotalShown a.payload.stats.totalPortfolioValue)) ::
          Effect.out ("Illiquid value: $" ++ toString (viewUserHoldingsShown a.payload.stats.holdingsValue)) ::
          Effect.out ("Liquid value: $" ++ toString (viewUserLiquidShown a.payload.profile.baseCurrencyBalance)) ::
          Effect.out ("Buy volume: $" ++ toString (viewUserBuyVolumeShown a.payload.stats.totalBuyVolume)) ::
          Effect.out ("Sell volume: $" ++ toString (viewUserSellVolumeShown a.payload.stats.totalSellVolume)) ::
          Effect.out (toString a.payload.stats.coinsCreated ++ " created coins") ::
          (a.payload.createdCoins.map (fun c => Effect.out (createdCoinLine c)) ++
            Effect.out "Recent transactions" :: (a.payload.recentTransactions.map vuTxLines).flatten)

def hexDigitChar (n : ℕ) : Char := if n < 10 then Char.ofNat (48 + n) else Char.ofNat (55 + n)

/-- UTF-8 bytes of one code point. -/
def utf8Bytes (n : ℕ) : List ℕ :=
  if n < 128 then [n]
  else if n < 2048 then [192 + n / 64, 128 + n % 64]
  else if n < 65536 then [224 + n / 4096, 128 + n / 64 % 64, 128 + n % 64]
  else [240 + n / 262144, 128 + n / 4096 % 64, 128 + n / 64 % 64, 128 + n % 64]

def percentByte (b : ℕ) : List Char := [Char.ofNat 37, hexDigitChar (b / 16), hexDigitChar (b % 16)]

/-- Characters encodeURIComponent leaves unescaped: alphanumerics and
hyphen, underscore, dot, bang, tilde, star, apostrophe, parentheses. -/
def isUriUnescaped (c : Char) : Bool :=
  c.isAlphanum || c == Char.ofNat 45 || c == Char.ofNat 95 || c == Char.ofNat 46 ||
    c == Char.ofNat 33 || c == Char.ofNat 126 || c == Char.ofNat 42 || c == Char.ofNat 39 ||
    c == Char.ofNat 40 || c == Char.ofNat 41

/-- Model of the JavaScript encodeURIComponent: unescaped characters pass
through, everything else becomes percent-encoded uppercase-hex UTF-8
bytes. -/
def encodeURIComponent (s : String) : String :=
  String.mk (s.data.foldr
    (fun c acc =>
      (if isUriUnescaped c then [c]
       else (utf8Bytes c.toNat).foldr (fun b acc2 => percentByte b ++ acc2) []) ++ acc)
    [])

/-- The page argument of the market handler (line 513): first token or the
default 1. -/
def marketPage (args : List String) : String := (args.get? 0).getD "1"

/-- The search term of the market handler (lines 514-517): second token,
default empty, with any further tokens re-joined by spaces. -/
def marketSearchRaw (args : List String) : String := joinRest (args.drop 1)

/-- The market query string (line 520). -/
def marketUrl (args : List String) : String :=
  "market?search=" ++ encodeURIComponent (marketSearchRaw args) ++
    "&sortBy=marketCap&sortOrder=desc&priceFilter=all&changeFilter=all&page=" ++
    marketPage args ++ "&limit=6"

/-- A market table row (line 543). -/
def marketCoinLine (c : MarketCoin) : String :=
  "  " ++ c.symbol ++ " (" ++ c.name ++ ") | $" ++ toString (round3 c.currentPrice) ++ " | " ++
    changeStr c.change24h ++ " | " ++ toString c.marketCap ++ " | @" ++ c.creatorName

/-- Embedding of the market handler (lines 510-546). -/
def marketRun (cookie : String) (r : Resp MarketJson) (args : List String) : List Effect :=
  let p := api_req cookie r (marketUrl args) "GET" ReqBody.empty
  p.1 ++ match p.2 with
  | none => []
  | some a =>
    if a.ok = false then apiErrLines a
    else
      Effect.out ("Market (page " ++ marketPage args ++ " of " ++ toString a.payload.totalPages ++ ")") ::
        Effect.out "  Symbol (Name) | Current price | Change 24h | Market cap | Creator name" ::
          a.payload.coins.map (fun c => Effect.out (marketCoinLine c))

/-- Embedding of the buy-coin handler (lines 547-573). -/
def buyCoinRun (cookie : String) (r : Resp TradeJson) (args : List String) : List Effect :=
  if args.length ≠ 2 then [Effect.out "Invalid command parameters"]
  else
    let coin := (args.get? 0).getD ""
    let amount := (args.get? 1).getD ""
    let p := api_req cookie r ("coin/" ++ coin ++ "/trade") "POST" (ReqBody.trade "BUY" (parseFloatQ amount))
    p.1 ++ match p.2 with
    | none => []
    | some a =>
      if a.ok = false then apiErrLines a
      else
        [Effect.out ("Bought " ++ toString a.payload.coinsSold ++ " " ++ coin ++ " successfully."),
         Effect.out ("New balance: $" ++ toString a.payload.newBalance ++ " (-" ++ amount ++ ")")]

/-- Embedding of the sell-coin handler (lines 574-600). -/
def sellCoinRun (cookie : String) (r : Resp TradeJson) (args : List String) : List Effect :=
  if args.length ≠ 2 then [Effect.out "Invalid command parameters"]
  else
    let coin := (args.get? 0).getD ""
    let amount := (args.get? 1).getD ""
    let p := api_req cookie r ("coin/" ++ coin ++ "/trade") "POST" (ReqBody.trade "SELL" (parseFloatQ amount))
    p.1 ++ match p.2 with
    | none => []
    | some a =>
      if a.ok = false then apiErrLines a
      else
        [Effect.out ("Sold " ++ toString a.payload.coinsSold ++ " " ++ coin ++ " successfully."),
         Effect.out ("New balance: $" ++ toString a.payload.newBalance ++ " (+" ++ amount ++ ")")]

/-- Header lines of the portfolio report (lines 626-631). -/
def portfolioHeader (a : Resp PortfolioJson) : List Effect :=
  [Effect.out "Portfolio",
   Effect.out ("Balance: $" ++ toString (round3 a.payload.baseCurrencyBalance)),
   Effect.out ("Total coin value: $" ++ toString (round3 a.payload.totalCoinValue)),
   Effect.out ("Total value: $" ++ toString (round3 a.payload.totalValue)),
   Effect.out "Coin holdings",
   Effect.out "  Symbol | Quantity Owned | Price | P&L% | 24h Change | Value"]

/-- A holding row of the portfolio report (line 649). -/
def holdingLine (h : Holding) : String :=
  "  " ++ h.symbol ++ " | " ++ toString (round3 h.quantity) ++ " | $" ++ toString h.currentPrice ++
    " | " ++ changeStr h.percentageChange ++ " | " ++ changeStr h.change24h ++
    " | $" ++ toString (round3 h.value)

/-- A transaction row of the portfolio report (lines 653-671); an
unrecognized type prints nothing. -/
def txLines (t : Tx) : List Effect :=
  if t.ty = "BUY" then
    [Effect.out ("  Buy " ++ toString (round3 t.quantity) ++ " " ++ t.coin.symbol ++
      " for $" ++ toString t.totalBaseCurrencyAmount)]
  else if t.ty = "TRANSFER_OUT" then
    [Effect.out ("  Transferred " ++
      (if t.coin.id = 1 then "$" ++ toString (round3 t.totalBaseCurrencyAmount)
       else toString (round3 t.quantity) ++ " " ++ t.coin.symbol) ++
      " to " ++ t.recipientUsername ++ " ")]
  else if t.ty = "SELL" then
    [Effect.out ("  Sell " ++ toString (round3 t.quantity) ++ " " ++ t.coin.symbol ++
      " for $" ++ toString t.totalBaseCurrencyAmount)]
  else if t.ty = "TRANSFER_IN" then
    [Effect.out ("  Received " ++
      (if t.coin.id = 1 then "$" ++ toString (round3 t.totalBaseCurrencyAmount)
       else toString (round3 t.quantity) ++ " " ++ t.coin.symbol) ++
      " from " ++ t.senderUsername)]
  else []

/-- Embedding of the portfolio handler (lines 601-673): both api_req calls
are issued before either result is checked for undefined. -/
def portfolioRun (cookie : String) (ra : Resp PortfolioJson) (rb : Resp TransactionsJson) : List Effect :=
  let pa := api_req cookie ra "portfolio/total" "GET" ReqBody.empty
  let pb := api_req cookie rb "transactions" "GET" ReqBody.empty
  pa.1 ++ pb.1 ++
    match pa.2, pb.2 with
    | none, _ => []
    | some _, none => []
    | some a, some b =>
      if a.ok = false then apiErrLines a
      else if b.ok = false then apiErrLines b
      else
        portfolioHeader a ++ a.payload.coinHoldings.map (fun h => Effect.out (holdingLine h)) ++
          Effect.out "Transactions" :: (b.payload.transactions.map txLines).flatten

/-- JavaScript split-on-single-space semantics: every space character ends a
token, adjacent spaces give empty tokens, and the result is never the empty
list. -/
def splitSpacesAux : List Char → List Char → List String
  | [], acc => [String.mk acc.reverse]
  | c :: rest, acc =>
    if c = Char.ofNat 32 then String.mk acc.reverse :: splitSpacesAux rest []
    else splitSpacesAux rest (c :: acc)

/-- Tokenization of one input line (line 683 of src/main.ts). -/
def splitTokens (s : String) : List String := splitSpacesAux s.data []

/-- The registered command names, in insertion order (lines 116-673). -/
def commandNames : List String :=
  ["commands", "set-cookie", "coinflip", "slots", "summary", "redeem", "new-coin", "settings",
    "me", "daily-reward", "notifications", "invest", "view-user", "market", "buy-coin",
    "sell-coin", "portfolio"]

/-- The unknown-command error line (line 688), naming the offending token. -/
def unknownCmdMsg (tok : String) : String :=
  "Command \"" ++ tok ++ "\" does not exist. Type " ++ apos ++ "commands" ++ apos ++
    " to list commands."

/-- One iteration of the REPL loop (lines 678-692), parameterized by the
dispatcher that runs a registered command: an unknown first token only
prints the error line and changes nothing. -/
def replStep (run : String → List String → Config → Config × List Effect) (cfg : Config) (line : String) : Config × List Effect :=
  match splitTokens line with
  | [] => (cfg, [])
  | tok :: rest =>
    if commandNames.contains tok = false then (cfg, [Effect.out (unknownCmdMsg tok)])
    else run tok rest cfg

/-- A concrete five-coin market page used by concrete instantiations. -/
def c2MarketResp : Resp MarketJson :=
  Resp.mk true "" (MarketJson.mk
    [MarketCoin.mk "A" "" 0 0 0 "", MarketCoin.mk "B" "" 0 0 0 "", MarketCoin.mk "C" "" 0 0 0 "",
     MarketCoin.mk "D" "" 0 0 0 "", MarketCoin.mk "E" "" 0 0 0 ""] 1)

theorem api_req_unknown {α : Type} (r : Resp α) (api method : String) (body : ReqBody) :
    api_req "unknown" r api method body = ([Effect.warn], none) := by
  simp [api_req]

theorem api_req_ok {α : Type} {cookie : String} (hc : cookie ≠ "unknown") (r : Resp α)
    (api method : String) (body : ReqBody) :
    api_req cookie r api method body =
      ([Effect.net ("https://rugplay.com/api/" ++ api) method body], some r) := by
  simp [api_req, hc]

theorem parseJsonStringBody_escape (cs tail : List Char) :
    parseJsonStringBody (escapeJson cs ++ quoteChar :: tail) = some (cs, tail) := by
  induction cs with
  | nil =>
    have h1 : ¬ quoteChar = backslashChar := by decide
    rw [show escapeJson [] ++ quoteChar :: tail = quoteChar :: tail from rfl,
      parseJsonStringBody.eq_def]
    simp [h1]
  | cons c cs ih =>
    by_cases h : c = quoteChar ∨ c = backslashChar
    · rw [show escapeJson (c :: cs) ++ quoteChar :: tail
          = backslashChar :: c :: (escapeJson cs ++ quoteChar :: tail) from by
            simp [escapeJson, escapeChar, h],
        parseJsonStringBody.eq_def]
      simp [h, ih]
    · rw [not_or] at h
      obtain ⟨h1, h2⟩ := h
      rw [show escapeJson (c :: cs) ++ quoteChar :: tail
          = c :: (escapeJson cs ++ quoteChar :: tail) from by
            simp [escapeJson, escapeChar, h1, h2],
        parseJsonStringBody.eq_def]
      simp [h1, h2, ih]

theorem parseConfig_stringify (c : Config) : parseConfig (stringifyConfig c) = some c := by
  unfold parseConfig stringifyConfig
  rw [show (String.mk (configPrefixChars ++ (escapeJson c.cookie.data ++ [quoteChar, rbraceChar]))).data
      = configPrefixChars ++ (escapeJson c.cookie.data ++ [quoteChar, rbraceChar]) from rfl]
  rw [List.take_left, List.drop_left, if_pos rfl]
  rw [show escapeJson c.cookie.data ++ [quoteChar, rbraceChar]
      = escapeJson c.cookie.data ++ quoteChar :: [rbraceChar] from rfl]
  rw [parseJsonStringBody_escape]
  simp

theorem floor_eq_jsRound_iff (y : ℚ) : ⌊y⌋ = jsRound y ↔ Int.fract y < 1/2 := by
  unfold jsRound
  constructor
  · intro h
    by_contra hge
    push_neg at hge
    have hfr : (⌊y⌋ : ℚ) + Int.fract y = y := Int.floor_add_fract y
    have h1 : ((⌊y⌋ + 1 : ℤ) : ℚ) ≤ y + 1/2 := by push_cast; linarith
    have h2 : ⌊y⌋ + 1 ≤ ⌊y + 1/2⌋ := Int.le_floor.mpr h1
    omega
  · intro hlt
    have hfr : (⌊y⌋ : ℚ) + Int.fract y = y := Int.floor_add_fract y
    have h0 : Int.fract y ≥ 0 := Int.fract_nonneg y
    rw [eq_comm, Int.floor_eq_iff]
    constructor
    · linarith
    · linarith

theorem splitSpacesAux_ne_nil (cs : List Char) : ∀ acc, splitSpacesAux cs acc ≠ [] := by
  induction cs with
  | nil => intro acc; simp [splitSpacesAux]
  | cons c rest ih =>
    intro acc
    by_cases h : c = Char.ofNat 32
    · simp [splitSpacesAux, h]
    · simp only [splitSpacesAux, if_neg h]
      exact ih _

theorem investLoop_count_ok {cookie : String} (hc : cookie ≠ "unknown") (trades : ℕ → Resp Unit)
    (coins : List MarketCoin) (amount : ℚ) :
    ∀ (fuel i : ℕ), (∀ j, j < fuel → (trades (i + j)).ok = true) → i + fuel ≤ coins.length →
      countBuyCalls (investLoop cookie trades coins amount i fuel) = fuel := by
  intro fuel
  induction fuel with
  | zero => intro i _ _; simp [investLoop, countBuyCalls]
  | succ n ih =>
    intro i hok hlen
    have hi : i < coins.length := by omega
    obtain ⟨c, hsome⟩ : ∃ c, coins.get? i = some c := ⟨coins.get ⟨i, hi⟩, List.get?_eq_get hi⟩
    have hok0 : (trades i).ok = true := by simpa using hok 0 (by omega)
    simp only [investLoop, hsome, api_req_ok hc]
    rw [hok0]
    simp only [Bool.true_eq_false, if_false, List.singleton_append]
    rw [show countBuyCalls (Effect.net ("https://rugplay.com/api/" ++ ("coin/" ++ c.symbol ++ "/trade")) "POST"
          (ReqBody.trade "BUY" (some amount)) ::
        Effect.out (" Invested in " ++ c.symbol ++ " (-" ++ toString amount ++ ")") ::
        investLoop cookie trades coins amount (i + 1) n)
      = countBuyCalls (investLoop cookie trades coins amount (i + 1) n) + 1 from by
        simp [countBuyCalls, List.countP_cons, Effect.isBuyCall]]
    rw [ih (i + 1) (fun j hj => by
      have := hok (j + 1) (by omega)
      simpa [Nat.add_assoc, Nat.add_comm 1 j] using this) (by omega)]

theorem investLoop_count_fail {cookie : String} (hc : cookie ≠ "unknown") (trades : ℕ → Resp Unit)
    (coins : List MarketCoin) (amount : ℚ) :
    ∀ (j fuel i : ℕ), j < fuel → (∀ t, t < j → (trades (i + t)).ok = true) →
      (trades (i + j)).ok = false → i + j < coins.length →
      countBuyCalls (investLoop cookie trades coins amount i fuel) = j + 1 := by
  intro j
  induction j with
  | zero =>
    intro fuel i hj _ hfail hlen
    obtain ⟨n, rfl⟩ : ∃ n, fuel = n + 1 := ⟨fuel - 1, by omega⟩
    have hi : i < coins.length := by omega
    obtain ⟨c, hsome⟩ : ∃ c, coins.get? i = some c := ⟨coins.get ⟨i, hi⟩, List.get?_eq_get hi⟩
    have hfail0 : (trades i).ok = false := by simpa using hfail
    simp only [investLoop, hsome, api_req_ok hc]
    rw [hfail0]
    simp [countBuyCalls, List.countP_cons, Effect.isBuyCall, apiErrLines]
  | succ m ih =>
    intro fuel i hj hok hfail hlen
    obtain ⟨n, rfl⟩ : ∃ n, fuel = n + 1 := ⟨fuel - 1, by omega⟩
    have hi : i < coins.length := by omega
    obtain ⟨c, hsome⟩ : ∃ c, coins.get? i = some c := ⟨coins.get ⟨i, hi⟩, List.get?_eq_get hi⟩
    have hok0 : (trades i).ok = true := by simpa using hok 0 (by omega)
    simp only [investLoop, hsome, api_req_ok hc]
    rw [hok0]
    simp only [Bool.true_eq_false, if_false, List.singleton_append]
    rw [show countBuyCalls (Effect.net ("https://rugplay.com/api/" ++ ("coin/" ++ c.symbol ++ "/trade")) "POST"
          (ReqBody.trade "BUY" (some amount)) ::
        Effect.out (" Invested in " ++ c.symbol ++ " (-" ++ toString amount ++ ")") ::
        investLoop cookie trades coins amount (i + 1) n)
      = countBuyCalls (investLoop cookie trades coins amount (i + 1) n) + 1 from by
        simp [countBuyCalls, List.countP_cons, Effect.isBuyCall]]
    rw [ih n (i + 1) (by omega)
      (fun t ht => by
        have := hok (t + 1) (by omega)
        simpa [Nat.add_assoc, Nat.add_comm 1 t] using this)
      (by
        have : i + 1 + m = i + (m + 1) := by omega
        rw [this]; exact hfail)
      (by omega)]

theorem div1000_cast_inj (a b : ℤ) : ((a : ℚ)/1000 = (b : ℚ)/1000) ↔ a = b := by
  constructor
  · intro h
    have h1 : (a : ℚ) = b := by
      field_simp at h
      exact_mod_cast h
    exact_mod_cast h1
  · intro h; rw [h]

/-- C3: when the config file exists and parses to a config, startup keeps
that cookie unchanged, leaves the file alone and reports nothing; when the
file is missing or unparseable, startup yields the sentinel default, writes
the default back to disk, reports the failure and continues (startupLoad is
a total function). -/
theorem c3_load_behavior :
    (∀ (fs : FS) (content : String) (c : Config),
        fs.file = some content → parseConfig content = some c →
        startupLoad fs = (c, fs, [])) ∧
    (∀ fs : FS, readConfig fs = none →
        startupLoad fs = (Config.mk "unknown", FS.mk (some (stringifyConfig (Config.mk "unknown"))),
          startupFailEffects)) := by
  constructor
  · intro fs content c hfile hparse
    have hrc : readConfig fs = some c := by rw [readConfig, hfile]; exact hparse
    unfold startupLoad
    rw [hrc]
  · intro fs hnone
    unfold startupLoad
    rw [hnone]
    rfl

/-- Witness for C3: a written abc config is loaded back as abc with no
write-back, and the missing file yields the default, the write-back and the
report. -/
theorem c3_load_behavior_witness :
    startupLoad (FS.mk (some (stringifyConfig (Config.mk "abc")))) =
      (Config.mk "abc", FS.mk (some (stringifyConfig (Config.mk "abc"))), []) ∧
    startupLoad (FS.mk none) =
      (Config.mk "unknown", FS.mk (some (stringifyConfig (Config.mk "unknown"))), startupFailEffects) :=
  ⟨c3_load_behavior.1 _ _ _ rfl (parseConfig_stringify _), c3_load_behavior.2 _ rfl⟩

/-- C4: save followed by load round-trips any cookie string exactly, and in
particular the set-cookie handler stores the joined tokens and a subsequent
load returns them unchanged. -/
theorem c4_save_load_roundtrip :
    (∀ (s : String) (fs : FS), readConfig (writeConfig fs (Config.mk s)) = some (Config.mk s)) ∧
    (∀ (cfg : Config) (fs : FS) (args : List String), args ≠ [] →
        (setCookieRun cfg fs args).1 = Config.mk (joinRest args) ∧
        readConfig (setCookieRun cfg fs args).2.1 = some (Config.mk (joinRest args))) := by
  have hrt : ∀ (c : Config) (fs : FS), readConfig (writeConfig fs c) = some c := by
    intro c fs
    unfold readConfig writeConfig
    simp [parseConfig_stringify]
  exact ⟨fun s fs => hrt (Config.mk s) fs,
    fun cfg fs args _ => ⟨rfl, hrt (Config.mk (joinRest args)) fs⟩⟩

/-- Witness for C4: set-cookie abc123 then a reload returns abc123. -/
theorem c4_save_load_roundtrip_witness :
    readConfig (writeConfig (FS.mk none) (Config.mk "abc123")) = some (Config.mk "abc123") ∧
    (setCookieRun (Config.mk "unknown") (FS.mk none) ["abc123"]).1 = Config.mk "abc123" ∧
    readConfig (setCookieRun (Config.mk "unknown") (FS.mk none) ["abc123"]).2.1 =
      some (Config.mk "abc123") := by
  have h2 := c4_save_load_roundtrip.2 (Config.mk "unknown") (FS.mk none) ["abc123"] (by decide)
  exact ⟨c4_save_load_roundtrip.1 "abc123" (FS.mk none), h2.1, h2.2⟩

/-- C5 counterexample: not every displayed currency value is
round(x*1000)/1000: the view-user liquid value at 1.0015 shows the
floor-based 1.001 instead of 1.002, and the view-user buy volume at 0.5
shows the bare floor 0 instead of 0.5. -/
theorem c5_currency_format_counterexample :
    viewUserLiquidShown (2003/2000) ≠ round3 (2003/2000) ∧
    viewUserBuyVolumeShown (1/2) ≠ round3 (1/2) := by
  constructor
  · norm_num [viewUserLiquidShown, round3, jsFloor, jsRound]
  · norm_num [viewUserBuyVolumeShown, round3, jsFloor, jsRound]

/-- C5 amended: the summary-style currency fields (also used by the
portfolio report) follow the round(x*1000)/1000 rule, but the view-user
report deviates: its liquid value and sell volume use floor(x*1000)/1000,
which agrees with the round rule exactly when the fractional part of x*1000
is below one half, and its buy volume is the bare integer floor of x. -/
theorem c5_currency_format_amended (q : ℚ) :
    viewUserTotalShown q = round3 q ∧
    viewUserHoldingsShown q = round3 q ∧
    (viewUserLiquidShown q = round3 q ↔ Int.fract (q * 1000) < 1/2) ∧
    (viewUserSellVolumeShown q = round3 q ↔ Int.fract (q * 1000) < 1/2) ∧
    viewUserBuyVolumeShown q ≤ q ∧ q < viewUserBuyVolumeShown q + 1 := by
  refine ⟨rfl, rfl, ?_, ?_, ?_, ?_⟩
  · unfold viewUserLiquidShown round3 jsFloor
    rw [div1000_cast_inj]
    exact floor_eq_jsRound_iff _
  · unfold viewUserSellVolumeShown round3 jsFloor
    rw [div1000_cast_inj]
    exact floor_eq_jsRound_iff _
  · exact Int.floor_le q
  · exact Int.lt_floor_add_one q

/-- C6: the shared change classification is up with glyph caret iff the
value is strictly positive, flat with glyph dash iff it is exactly zero and
down with glyph v iff it is strictly negative, and every rendered change
cell is that glyph followed by the raw value. -/
theorem c6_change_classification (v : ℚ) :
    (dayChangeTag v = Dir.up ↔ 0 < v) ∧
    (dayChangeTag v = Dir.flat ↔ v = 0) ∧
    (dayChangeTag v = Dir.down ↔ v < 0) ∧
    dirGlyph Dir.up = "^" ∧ dirGlyph Dir.flat = "-" ∧ dirGlyph Dir.down = "v" ∧
    changeStr v = dirGlyph (dayChangeTag v) ++ " " ++ toString v := by
  rcases lt_trichotomy v 0 with h | h | h
  · have htag : dayChangeTag v = Dir.down := by
      unfold dayChangeTag
      rw [if_neg (not_lt.mpr (le_of_lt h)), if_neg (ne_of_lt h)]
    exact ⟨iff_of_false (by simp [htag]) (not_lt.mpr (le_of_lt h)),
      iff_of_false (by simp [htag]) (ne_of_lt h),
      iff_of_true htag h, rfl, rfl, rfl, rfl⟩
  · have htag : dayChangeTag v = Dir.flat := by
      unfold dayChangeTag
      rw [if_neg (by simp [h]), if_pos h]
    exact ⟨iff_of_false (by simp [htag]) (by simp [h]),
      iff_of_true htag h,
      iff_of_false (by simp [htag]) (by simp [h]), rfl, rfl, rfl, rfl⟩
  · have htag : dayChangeTag v = Dir.up := by
      unfold dayChangeTag
      rw [if_pos h]
    exact ⟨iff_of_true htag h,
      iff_of_false (by simp [htag]) (ne_of_gt h),
      iff_of_false (by simp [htag]) (not_lt.mpr (le_of_lt h)), rfl, rfl, rfl, rfl⟩

/-- C7: slot_record is defined on exactly the six identifiers with their
fixed glyphs, any other identifier looks up to the absent entry, and the
slots handler then prints the three lookups silently (the undefined text,
with no placeholder substitution and no error line). -/
theorem c7_slot_symbols (k : String) :
    ((slot_record k).isSome = true ↔
      k ∈ ["wattesigma", "webx", "twoblade", "lyntr", "bussin", "subterfuge"]) ∧
    slot_record "wattesigma" = some "◻️" ∧
    slot_record "webx" = some "⬛" ∧
    slot_record "twoblade" = some "🟥" ∧
    slot_record "lyntr" = some "🟪" ∧
    slot_record "bussin" = some "🟧" ∧
    slot_record "subterfuge" = some "🟩" ∧
    slotsSymbolLine ["aaa", "bbb", "ccc"] = "undefined undefined undefined" ∧
    slotsRun "c" (Resp.mk true "" (SlotsJson.mk false 0 0 ["aaa", "bbb", "ccc"])) ["1"] =
      [Effect.net "https://rugplay.com/api/gambling/slots" "POST" (ReqBody.slots (parseFloatQ "1")),
       Effect.out (slotsSymbolLine ["aaa", "bbb", "ccc"]),
       Effect.out "You lost.",
       Effect.out ("New balance: $" ++ toString (round3 0) ++ " (-" ++ showAmt (parseFloatQ "1") ++ ")")] := by
  refine ⟨?_, rfl, rfl, rfl, rfl, rfl, rfl, by decide, ?_⟩
  · unfold slot_record
    split_ifs with h1 h2 h3 h4 h5 h6 <;> simp_all
  · simp [slotsRun, api_req]

/-- C8: invoking the market command with no arguments requests page 1, the
empty search term and limit 6, and the issued request is exactly that
query against the fixed base URL. -/
theorem c8_market_defaults :
    marketPage [] = "1" ∧ marketSearchRaw [] = "" ∧
    marketUrl [] = "market?search=&sortBy=marketCap&sortOrder=desc&priceFilter=all&changeFilter=all&page=1&limit=6" ∧
    (marketRun "c" (Resp.mk true "" (MarketJson.mk [] 1)) []).head? =
      some (Effect.net ("https://rugplay.com/api/" ++ marketUrl []) "GET" ReqBody.empty) := by
  refine ⟨rfl, rfl, by decide, ?_⟩
  simp [marketRun, api_req]

/-- C9: an input line whose first token is not a registered command makes
the REPL print only the error line naming that token, with the config
unchanged and no network call, whatever the dispatcher would do. -/
theorem c9_unknown_command (run : String → List String → Config → Config × List Effect)
    (cfg : Config) (line : String)
    (h : commandNames.contains ((splitTokens line).headI) = false) :
    replStep run cfg line = (cfg, [Effect.out (unknownCmdMsg ((splitTokens line).headI))]) ∧
    countNet (replStep run cfg line).2 = 0 := by
  cases e : splitTokens line with
  | nil => exact absurd e (splitSpacesAux_ne_nil _ _)
  | cons tok rest =>
    rw [e] at h
    simp only [List.headI] at h ⊢
    have hstep : replStep run cfg line = (cfg, [Effect.out (unknownCmdMsg tok)]) := by
      unfold replStep
      rw [e]
      show (if commandNames.contains tok = false then (cfg, [Effect.out (unknownCmdMsg tok)])
        else run tok rest cfg) = (cfg, [Effect.out (unknownCmdMsg tok)])
      rw [if_pos h]
    exact ⟨hstep, by rw [hstep]; simp [countNet, List.countP_cons, Effect.isNet]⟩

/-- Witness for C9: the line foobar. -/
theorem c9_unknown_command_witness :
    replStep (fun _ _ c => (c, [])) (Config.mk "x") "foobar" =
      (Config.mk "x", [Effect.out (unknownCmdMsg "foobar")]) ∧
    countNet (replStep (fun _ _ c => (c, [])) (Config.mk "x") "foobar").2 = 0 := by
  have h := c9_unknown_command (fun _ _ c => (c, [])) (Config.mk "x") "foobar" (by decide)
  simpa using h

/-- C10: any first token other than the string 1 (including 0, garbage or a
missing token) wagers heads, a missing amount token defaults to the wager
0.01, and the issued request carries exactly that side and amount. -/
theorem c10_coinflip_defaults (args : List String) (cookie : String) (r : Resp CoinflipJson) :
    (args.head? ≠ some "1" → coinflipSide args = "heads") ∧
    (args.get? 1 = none → coinflipAmount args = some (1/100)) ∧
    (cookie ≠ "unknown" →
      (coinflipRun cookie r args).head? =
        some (Effect.net "https://rugplay.com/api/gambling/coinflip" "POST"
          (ReqBody.coinflip (coinflipSide args) (coinflipAmount args)))) := by
  refine ⟨?_, ?_, ?_⟩
  · intro h
    unfold coinflipSide
    rw [if_neg h]
  · intro h
    unfold coinflipAmount
    rw [h]
    simp [parseFloatQ, digitsToNat]
    norm_num
  · intro hc
    simp [coinflipRun, api_req_ok hc]

/-- Witness for C10: the side token 0 with no amount token. -/
theorem c10_coinflip_defaults_witness :
    coinflipSide ["0"] = "heads" ∧
    coinflipAmount ["0"] = some (1/100) ∧
    (coinflipRun "c" (Resp.mk true "" (CoinflipJson.mk true 0 0)) ["0"]).head? =
      some (Effect.net "https://rugplay.com/api/gambling/coinflip" "POST"
        (ReqBody.coinflip (coinflipSide ["0"]) (coinflipAmount ["0"]))) := by
  have h := c10_coinflip_defaults ["0"] "c" (Resp.mk true "" (CoinflipJson.mk true 0 0))
  exact ⟨h.1 (by decide), h.2.1 (by decide), h.2.2 (by decide)⟩

/-- C2: with a usable cookie, a positive per-coin amount, a nonnegative
budget and a market page listing at least floor(budget/amount) coins, the
invest handler computes the purchase count floor(budget/amount); when every
trade call succeeds it issues exactly that many sequential BUY requests, and
when the call at zero-based position j is the first to return non-OK,
exactly j BUY requests preceded it and none follow it (j+1 in total, with no
rollback). -/
theorem c2_invest_counts (cookie : String) (budget amount : ℚ) (page : String)
    (mkt : Resp MarketJson) (trades : ℕ → Resp Unit)
    (hc : cookie ≠ "unknown") (_hamt : 0 < amount) (_hbud : 0 ≤ budget)
    (hok : mkt.ok = true)
    (hlen : (investLimit budget amount).toNat ≤ mkt.payload.coins.length) :
    investLimit budget amount = ⌊budget / amount⌋ ∧
    ((∀ i, i < (investLimit budget amount).toNat → (trades i).ok = true) →
      countBuyCalls (investCore cookie budget amount page mkt trades) =
        (investLimit budget amount).toNat) ∧
    (∀ j, j < (investLimit budget amount).toNat →
      (∀ i, i < j → (trades i).ok = true) → (trades j).ok = false →
      countBuyCalls (investCore cookie budget amount page mkt trades) = j + 1) := by
  have hcore : investCore cookie budget amount page mkt trades =
      Effect.net ("https://rugplay.com/api/" ++ investMarketApi page (investLimit budget amount))
          "GET" ReqBody.empty ::
        Effect.out ("Investing in " ++ toString (investLimit budget amount) ++
            " coins at the top of the marketplace") ::
          investLoop cookie trades mkt.payload.coins amount 0 (investLimit budget amount).toNat := by
    simp [investCore, api_req_ok hc, hok]
  have hdrop : ∀ l : List Effect,
      countBuyCalls (Effect.net ("https://rugplay.com/api/" ++ investMarketApi page (investLimit budget amount))
          "GET" ReqBody.empty ::
        Effect.out ("Investing in " ++ toString (investLimit budget amount) ++
            " coins at the top of the marketplace") :: l) = countBuyCalls l := by
    intro l
    simp [countBuyCalls, List.countP_cons, Effect.isBuyCall]
  refine ⟨rfl, ?_, ?_⟩
  · intro hall
    rw [hcore, hdrop]
    exact investLoop_count_ok hc trades _ amount _ 0
      (fun j hj => by simpa using hall j (by simpa using hj)) (by simpa using hlen)
  · intro j hj hpre hfail
    rw [hcore, hdrop]
    exact investLoop_count_fail hc trades _ amount j _ 0 hj
      (fun t ht => by simpa using hpre t ht) (by simpa using hfail) (by omega)

/-- Witness for C2: budget 100 and amount 20 on a five-coin page give five
BUY calls when all succeed, and three BUY calls in total when the third call
is the one that fails. -/
theorem c2_invest_counts_witness :
    countBuyCalls (investCore "c" 100 20 "1" c2MarketResp (fun _ => Resp.mk true "" ())) = 5 ∧
    countBuyCalls (investCore "c" 100 20 "1" c2MarketResp
      (fun i => Resp.mk (decide (i < 2)) "" ())) = 3 := by
  have hlim : investLimit (100 : ℚ) 20 = 5 := by
    norm_num [investLimit, jsFloor]
  constructor
  · have h := (c2_invest_counts "c" 100 20 "1" c2MarketResp (fun _ => Resp.mk true "" ())
      (by decide) (by norm_num) (by norm_num) rfl (by rw [hlim]; decide)).2.1
    rw [hlim] at h
    exact h (fun i _ => rfl)
  · have h := (c2_invest_counts "c" 100 20 "1" c2MarketResp (fun i => Resp.mk (decide (i < 2)) "" ())
      (by decide) (by norm_num) (by norm_num) rfl (by rw [hlim]; decide)).2.2
    rw [hlim] at h
    have h3 := h 2 (by norm_num) (fun i hi => by
      simp only []
      interval_cases i <;> rfl) (by simp)
    simpa using h3

/-- C1 counterexample: with the sentinel cookie, the portfolio command
prints the unauthenticated warning twice rather than exactly once (both of
its api_req calls run before either result is checked), and the settings
command performs one real network call (the unguarded side-channel me()
fetch) before its api_req guard fires. -/
theorem c1_gateway_guard_counterexample :
    countWarn (portfolioRun "unknown" (Resp.mk true "" (PortfolioJson.mk 0 0 0 []))
        (Resp.mk true "" (TransactionsJson.mk []))) = 2 ∧
    countNet (settingsRun "unknown" (Resp.mk true "" (MeJson.mk "" "" ""))
        (Resp.mk true "" ()) (fun _ => true) ["none", "none", "none", "none"]) = 1 := by
  constructor <;> decide

/-- C1 amended: with the sentinel cookie, each api_req call prints the
warning once and makes no network request, so every handler that reaches its
first api_req call produces exactly the warning trace, with two exceptions:
the portfolio handler issues both api_req calls first and warns twice (still
with no network request), and the settings handler performs the side-channel
me() network fetch before its api_req guard (the new-coin handler also reads
its icon file first). -/
theorem c1_gateway_guard_amended
    (rcf : Resp CoinflipJson) (args1 : List String)
    (rsl : Resp SlotsJson) (args2 : List String)
    (rsum : Resp SummaryJson)
    (rred : Resp RedeemJson) (args3 : List String)
    (fok : String → Bool) (rnc : Resp NewCoinJson) (args4 : List String)
    (rme : Resp MeJson) (rset : Resp Unit) (fok2 : String → Bool) (args5 : List String)
    (rdr : Resp DailyJson)
    (rnot : Resp NotificationsJson)
    (rmkt : Resp MarketJson) (trades : ℕ → Resp Unit) (args6 : List String)
    (rvu : Resp ViewUserJson) (args7 : List String)
    (rmk : Resp MarketJson) (args8 : List String)
    (rtr rtr2 : Resp TradeJson) (args9 args10 : List String)
    (rpt : Resp PortfolioJson) (rtx : Resp TransactionsJson) :
    (args4.length = 3 → fok ((args4.get? 2).getD "") = true →
      newCoinRun "unknown" fok rnc args4 = [Effect.fileRead ((args4.get? 2).getD ""), Effect.warn]) ∧
    (4 ≤ args5.length → rme.ok = true → (args5.get? 2).getD "" = "none" →
      settingsRun "unknown" rme rset fok2 args5 = [Effect.net meDataUrl "GET" ReqBody.empty, Effect.warn]) ∧
    (2 ≤ args6.length → (parseFloatQ ((args6.get? 0).getD "")).isSome = true →
      (parseFloatQ ((args6.get? 1).getD "")).isSome = true →
      investRun "unknown" rmkt trades args6 = [Effect.warn]) ∧
    (args7.length = 1 → viewUserRun "unknown" rvu args7 = [Effect.warn]) ∧
    (args9.length = 2 → buyCoinRun "unknown" rtr args9 = [Effect.warn]) ∧
    (args10.length = 2 → sellCoinRun "unknown" rtr2 args10 = [Effect.warn]) ∧
    coinflipRun "unknown" rcf args1 = [Effect.warn] ∧
    slotsRun "unknown" rsl args2 = [Effect.warn] ∧
    summaryRun "unknown" rsum = [Effect.warn] ∧
    redeemRun "unknown" rred args3 = [Effect.warn] ∧
    dailyRewardRun "unknown" rdr = [Effect.warn] ∧
    notificationsRun "unknown" rnot = [Effect.warn] ∧
    marketRun "unknown" rmk args8 = [Effect.warn] ∧
    portfolioRun "unknown" rpt rtx = [Effect.warn, Effect.warn] := by
  refine ⟨?_, ?_, ?_, ?_, ?_, ?_, ?_, ?_, ?_, ?_, ?_, ?_, ?_, ?_⟩
  · intro h hf
    simp only [List.get?_eq_getElem?] at hf ⊢
    rw [List.getElem?_eq_getElem (by omega)] at hf
    simp only [Option.getD_some] at hf
    simp [newCoinRun, h, hf, api_req]
  · intro h hme hnone
    have h4 : ¬ args5.length < 4 := by omega
    simp only [List.get?_eq_getElem?] at hnone
    simp [settingsRun, h4, meFetch, hme, hnone, settingsFinish, api_req]
  · intro h hb ha
    have h2 : ¬ args6.length < 2 := by omega
    obtain ⟨b, hb'⟩ := Option.isSome_iff_exists.mp hb
    obtain ⟨a, ha'⟩ := Option.isSome_iff_exists.mp ha
    simp only [List.get?_eq_getElem?] at hb' ha'
    simp [investRun, h2, hb', ha', investCore, api_req]
  · intro h
    simp [viewUserRun, h, api_req]
  · intro h
    simp [buyCoinRun, h, api_req]
  · intro h
    simp [sellCoinRun, h, api_req]
  · simp [coinflipRun, api_req]
  · simp [slotsRun, api_req]
  · simp [summaryRun, api_req]
  · simp [redeemRun, api_req]
  · simp [dailyRewardRun, api_req]
  · simp [notificationsRun, api_req]
  · simp [marketRun, api_req]
  · simp [portfolioRun, api_req]

/-- Witness for C1 amended: concrete arguments and responses for the
handlers whose conjuncts carry hypotheses. -/
theorem c1_gateway_guard_witness :
    newCoinRun "unknown" (fun _ => true) (Resp.mk true "" (NewCoinJson.mk "" 0 "")) ["n", "s", "p"] =
      [Effect.fileRead "p", Effect.warn] ∧
    settingsRun "unknown" (Resp.mk true "" (MeJson.mk "" "" "")) (Resp.mk true "" ())
      (fun _ => true) ["none", "none", "none", "none"] =
      [Effect.net meDataUrl "GET" ReqBody.empty, Effect.warn] ∧
    investRun "unknown" (Resp.mk true "" (MarketJson.mk [] 1)) (fun _ => Resp.mk true "" ())
      ["100", "20"] = [Effect.warn] ∧
    viewUserRun "unknown" (Resp.mk true "" (ViewUserJson.mk (VUProfile.mk "" "" "" false 0)
      (VUStats.mk 0 0 0 0 0) [] [])) ["u"] = [Effect.warn] ∧
    buyCoinRun "unknown" (Resp.mk true "" (TradeJson.mk 0 0)) ["A", "5"] = [Effect.warn] ∧
    sellCoinRun "unknown" (Resp.mk true "" (TradeJson.mk 0 0)) ["A", "5"] = [Effect.warn] ∧
    coinflipRun "unknown" (Resp.mk true "" (CoinflipJson.mk true 0 0)) [] = [Effect.warn] := by
  have h := c1_gateway_guard_amended
    (Resp.mk true "" (CoinflipJson.mk true 0 0)) []
    (Resp.mk true "" (SlotsJson.mk false 0 0 [])) []
    (Resp.mk true "" (SummaryJson.mk 0 0 0))
    (Resp.mk true "" (RedeemJson.mk "")) []
    (fun _ => true) (Resp.mk true "" (NewCoinJson.mk "" 0 "")) ["n", "s", "p"]
    (Resp.mk true "" (MeJson.mk "" "" "")) (Resp.mk true "" ()) (fun _ => true)
      ["none", "none", "none", "none"]
    (Resp.mk true "" (DailyJson.mk 0 0 0))
    (Resp.mk true "" (NotificationsJson.mk 0 []))
    (Resp.mk true "" (MarketJson.mk [] 1)) (fun _ => Resp.mk true "" ()) ["100", "20"]
    (Resp.mk true "" (ViewUserJson.mk (VUProfile.mk "" "" "" false 0) (VUStats.mk 0 0 0 0 0) [] [])) ["u"]
    (Resp.mk true "" (MarketJson.mk [] 1)) []
    (Resp.mk true "" (TradeJson.mk 0 0)) (Resp.mk true "" (TradeJson.mk 0 0)) ["A", "5"] ["A", "5"]
    (Resp.mk true "" (PortfolioJson.mk 0 0 0 [])) (Resp.mk true "" (TransactionsJson.mk []))
  refine ⟨h.1 rfl rfl, h.2.1 (by norm_num) rfl rfl, h.2.2.1 (by norm_num) ?_ ?_, h.2.2.2.1 rfl,
    h.2.2.2.2.1 rfl, h.2.2.2.2.2.1 rfl, h.2.2.2.2.2.2.1⟩
  · simp [parseFloatQ]
  · simp [parseFloatQ]
